import Mathlib

/-!
Shallow embedding of `src/monitoring.py` (the `pymaap` monitoring module).

The module provides two decorators, `Timer` and `ErrorCatcher`, a JSON log
formatter `JSONFormatter`, and an example `sanitizer` function.  The embedding
models one wrapped call as a pure function from the call's environment (the
values the external collaborators would return: uuid, clock readings, resource
samples, timestamp) to the call's outcome (the wrapper's returned value or
re-raised exception, together with the console lines, structured log entries
and CSV rows it emits).  Python floats for durations and megabyte counts are
modelled as integers in units of 10^-4 (the precision at which the module
prints them); none of the properties proved below depends on float rounding.
Exceptions are modelled as a type name plus a message, and a Python call that
may raise is an `Except Err` value.
-/

namespace Monitoring

/-- A Python exception, reduced to what the module observes of it:
its type and its message (`str(e)`). -/
structure Err where
  ty : String
  msg : String
deriving DecidableEq, Repr

/-- A Python value as seen by `safe_serialize` (monitoring.py lines 120-132):
either a pandas/geopandas DataFrame with a known row count, or a generic
object whose `str()` succeeds with a given rendering, or an object whose
`str()` raises. -/
inductive PyVal where
  | dataFrame (rows : Nat)
  | strOk (s : String)
  | strFails
deriving DecidableEq, Repr

/-- monitoring.py line 21: example sanitizer replacing every digit with
a star.  Python's `str.isdigit` also accepts non-ASCII digit characters;
the embedding uses ASCII `Char.isDigit`, which agrees with it on ASCII
text, and the properties proved below depend only on the star not being
a digit. -/
def sanitizer (arg_str : String) : String :=
  String.mk (arg_str.data.map (fun c => if c.isDigit then '*' else c))

/-- Python's `s[:n]` slice on code points. -/
def strTake (s : String) (n : Nat) : String :=
  String.mk (s.data.take n)

/-- The `Timer` decorator object: its constructor configuration
(monitoring.py lines 37-43).  File-system bootstrap and logger setup are
side effects outside the per-call behaviour modelled here. -/
structure Timer where
  log_to_console : Bool := true
  log_to_file : Bool := true
  track_resources : Bool := true
  max_arg_length : Option Nat := none
  sanitize_func : Option (String → String) := none

/-- monitoring.py lines 128-129: apply the configured sanitizer, if any. -/
def Timer.applySanitize (self : Timer) (s : String) : String :=
  match self.sanitize_func with
  | some f => f s
  | none => s

/-- monitoring.py lines 130-131: truncate to `max_arg_length` code points
plus an ellipsis marker when the string is strictly longer than the bound. -/
def truncateArg (maxLen : Option Nat) (s : String) : String :=
  match maxLen with
  | some n => if n < s.length then strTake s n ++ "..." else s
  | none => s

/-- monitoring.py lines 120-132, `safe_serialize`: DataFrames render as a
row-count summary; other values render via `str()` with the fixed fallback
on failure, then sanitization, then truncation. -/
def Timer.safe_serialize (self : Timer) (obj : PyVal) : String :=
  match obj with
  | .dataFrame n => "<DataFrame with " ++ toString n ++ " rows>"
  | .strOk s => truncateArg self.max_arg_length (self.applySanitize s)
  | .strFails => truncateArg self.max_arg_length (self.applySanitize ("<unserializable>"))

/-- Lowercase hexadecimal digit, as produced by Python's json escaping. -/
def hexDigitChar (n : Nat) : Char :=
  if n < 10 then Char.ofNat (48 + n) else Char.ofNat (97 + (n - 10))

/-- Four lowercase hex digits. -/
def hex4 (n : Nat) : String :=
  String.mk [hexDigitChar (n / 4096 % 16), hexDigitChar (n / 256 % 16),
             hexDigitChar (n / 16 % 16), hexDigitChar (n % 16)]

/-- Escaping of one character inside a JSON string literal, following
CPython's `json.dumps` with its default `ensure_ascii=True`. -/
def jsonEscapeChar (c : Char) : String :=
  if c = ('"') then "\\\""
  else if c = ('\\') then "\\\\"
  else if c = ('\n') then "\\n"
  else if c = ('\r') then "\\r"
  else if c = ('\t') then "\\t"
  else if c.toNat = 8 then "\\b"
  else if c.toNat = 12 then "\\f"
  else if c.toNat < 32 then "\\u" ++ hex4 c.toNat
  else if c.toNat < 127 then String.singleton c
  else if c.toNat < 65536 then "\\u" ++ hex4 c.toNat
  else
    "\\u" ++ hex4 (55296 + (c.toNat - 65536) / 1024) ++
    "\\u" ++ hex4 (56320 + (c.toNat - 65536) % 1024)

/-- A JSON string literal for `s`, per `json.dumps`. -/
def jsonString (s : String) : String :=
  "\"" ++ String.join (s.data.map jsonEscapeChar) ++ "\""

/-- A JSON array of string literals, with `json.dumps`'s default ", "
separator. -/
def jsonStringList (xs : List String) : String :=
  "[" ++ String.intercalate (", ") (xs.map jsonString) ++ "]"

/-- A JSON object whose values are all strings, with `json.dumps`'s default
", " and ": " separators and insertion-ordered keys. -/
def jsonStringObj (kvs : List (String × String)) : String :=
  "\x7b" ++
    String.intercalate (", ")
      (kvs.map (fun kv => jsonString kv.1 ++ ": " ++ jsonString kv.2)) ++
  "\x7d"

/-- monitoring.py lines 134-137: `json.dumps` of the args/kwargs dictionary,
after each value went through `safe_serialize`. -/
def argsRepr (argStrs : List String) (kwargStrs : List (String × String)) : String :=
  "\x7b" ++ jsonString ("args") ++ ": " ++ jsonStringList argStrs ++ ", " ++
    jsonString ("kwargs") ++ ": " ++ jsonStringObj kwargStrs ++ "\x7d"

/-- Python's `"%.4f"` rendering applied to a duration or megabyte count that
the embedding stores as an integer number of 10^-4 units. -/
def fmt4 (x : Int) : String :=
  let a := x.natAbs
  let frac := toString (a % 10000)
  (if x < 0 then "-" else "") ++ toString (a / 10000) ++ "." ++
    String.mk (List.replicate (4 - frac.length) ('0')) ++ frac

/-- Rendering of an optional measurement; on the wrapper's success path with
resource tracking enabled the value is always present. -/
def fmt4Opt (x : Option Int) : String :=
  match x with
  | some v => fmt4 v
  | none => "None"

/-- One structured log record as the module emits it: both `logging.info`
and `logging.exception`/`logger.exception` calls in monitoring.py always
pass `function_name` and `uuid` in `extra`. -/
structure LogEntry where
  level : String
  message : String
  function_name : String
  uuid : String
deriving DecidableEq, Repr

/-- One row of `timing_results.csv` as written by `Timer._save_to_csv`
(monitoring.py lines 87-91). -/
structure CsvRow where
  timestamp : String
  call_uuid : String
  function_name : String
  elapsed_time : Int
  cpu_time : Option Int
  mem_change : Option Int
  final_mem : Option Int
  args_repr : String
  log_message : String
deriving DecidableEq, Repr

/-- The environment of one wrapped call: what uuid4, the monotonic clock,
the psutil resource queries and `datetime.now` would return during that
call.  Each psutil query may raise, which the module does not guard
against. -/
structure CallEnv where
  call_uuid : String
  start_time : Int
  end_time : Int
  cpu_start : Except Err Int
  mem_start : Except Err Int
  cpu_end : Except Err Int
  mem_end : Except Err Int
  timestamp : String

/-- monitoring.py lines 100-101 and 111-112: `(sample) if
self.track_resources else None`.  When tracking is off the query is not
performed at all; when it is on, a query failure raises. -/
def sampleIf (track : Bool) (q : Except Err Int) : Except Err (Option Int) :=
  if track then q.map some else Except.ok none

/-- Everything one call through the `Timer` wrapper produces: the value
returned (or exception re-raised), the `print` output, the records handed
to `logging`, and the rows appended to the CSV file. -/
structure TimerOutcome (α : Type) where
  result : Except Err α
  console : List String
  logEntries : List LogEntry
  csvRows : List CsvRow

/-- monitoring.py lines 96-149, `Timer.__call__.wrapper`, for one call.
`f` is the outcome the wrapped function produces on the call's arguments;
`args` and `kwargs` are the argument values as `safe_serialize` sees them. -/
def Timer.wrapper {α : Type} (self : Timer) (env : CallEnv) (func_name : String)
    (args : List PyVal) (kwargs : List (String × PyVal)) (f : Except Err α) :
    TimerOutcome α :=
  match sampleIf self.track_resources env.cpu_start with
  | .error e => ⟨.error e, [], [], []⟩
  | .ok cpu_start =>
  match sampleIf self.track_resources env.mem_start with
  | .error e => ⟨.error e, [], [], []⟩
  | .ok mem_start =>
  match f with
  | .error e =>
    ⟨.error e, [],
     [⟨"ERROR", "Function `" ++ func_name ++ "` raised an exception",
       func_name, env.call_uuid⟩], []⟩
  | .ok result =>
  match sampleIf self.track_resources env.cpu_end with
  | .error e => ⟨.error e, [], [], []⟩
  | .ok cpu_end =>
  match sampleIf self.track_resources env.mem_end with
  | .error e => ⟨.error e, [], [], []⟩
  | .ok mem_end =>
  let elapsed_time := env.end_time - env.start_time
  let cpu_time : Option Int :=
    match cpu_start, cpu_end with
    | some cs, some ce => some (ce - cs)
    | _, _ => none
  let mem_change : Option Int :=
    match mem_start, mem_end with
    | some ms, some me => some (me - ms)
    | _, _ => none
  let final_mem : Option Int := mem_end
  let args_repr := argsRepr (args.map self.safe_serialize)
    (kwargs.map (fun kv => (kv.1, self.safe_serialize kv.2)))
  let log_message :=
    "Function `" ++ func_name ++ "` executed in " ++ fmt4 elapsed_time ++ " sec" ++
    (if self.track_resources then
      ", CPU Time: " ++ fmt4Opt cpu_time ++ " sec, Memory Change: " ++
      fmt4Opt mem_change ++ " MB, Final Memory: " ++ fmt4Opt final_mem ++ " MB"
    else "")
  ⟨.ok result,
   if self.log_to_console then [log_message] else [],
   [⟨"INFO", log_message, func_name, env.call_uuid⟩],
   if self.log_to_file then
     [⟨env.timestamp, env.call_uuid, func_name, elapsed_time, cpu_time,
       mem_change, final_mem, args_repr, log_message⟩]
   else []⟩

/-- The `ErrorCatcher` decorator object: its constructor configuration
(monitoring.py lines 161-173).  `max_bytes`, `backup_count` and the log
file path configure the rotating sink and play no role in the per-call
behaviour modelled here. -/
structure ErrorCatcher where
  log_to_console : Bool := true
  log_to_file : Bool := true
  error_log_file : String := "logs/error.log"
  max_bytes : Nat := 10 * 1024 * 1024
  backup_count : Nat := 5
  sanitize_func : Option (String → String) := none

/-- Everything one call through the `ErrorCatcher` wrapper produces. -/
structure CatcherOutcome (α : Type) where
  result : Except Err α
  logEntries : List LogEntry

/-- monitoring.py lines 196-209, `ErrorCatcher.__call__.wrapper`, for one
call: results pass through untouched; an exception is logged once at error
severity, with its message sanitized when a sanitizer is configured, and
then re-raised unchanged. -/
def ErrorCatcher.wrapper {α : Type} (self : ErrorCatcher) (call_uuid : String)
    (func_name : String) (f : Except Err α) : CatcherOutcome α :=
  match f with
  | .ok v => ⟨.ok v, []⟩
  | .error e =>
    let error_msg :=
      match self.sanitize_func with
      | some g => g e.msg
      | none => e.msg
    ⟨.error e,
     [⟨"ERROR",
       "Function `" ++ func_name ++ "` raised an exception: " ++ error_msg,
       func_name, call_uuid⟩]⟩

/-- A `logging.LogRecord` as `JSONFormatter.format` reads it: the formatted
time, level name, message, and the optional `function_name` and `uuid`
attributes that `record.__dict__.get` looks up. -/
structure LogRecord where
  asctime : String
  levelname : String
  message : String
  function_name : Option String
  uuid : Option String
deriving DecidableEq, Repr

/-- monitoring.py lines 25-31: the dictionary `JSONFormatter.format`
builds, key order included; missing `function_name` or `uuid` default to
"N/A". -/
def JSONFormatter.logRecord (r : LogRecord) : List (String × String) :=
  [("timestamp", r.asctime),
   ("level", r.levelname),
   ("message", r.message),
   ("function", r.function_name.getD ("N/A")),
   ("uuid", r.uuid.getD ("N/A"))]

/-- monitoring.py line 32: `json.dumps` of that dictionary. -/
def JSONFormatter.format (r : LogRecord) : String :=
  jsonStringObj (JSONFormatter.logRecord r)

/-- Both resource samples taken before the wrapped function runs succeed
(vacuously so when resource tracking is off, in which case no query is
made). -/
def startSamplesOk (self : Timer) (env : CallEnv) : Prop :=
  (∃ a, sampleIf self.track_resources env.cpu_start = Except.ok a) ∧
  (∃ a, sampleIf self.track_resources env.mem_start = Except.ok a)

/-- Both resource samples taken after the wrapped function returns succeed
(vacuously so when resource tracking is off). -/
def endSamplesOk (self : Timer) (env : CallEnv) : Prop :=
  (∃ a, sampleIf self.track_resources env.cpu_end = Except.ok a) ∧
  (∃ a, sampleIf self.track_resources env.mem_end = Except.ok a)

/-- A call environment in which every external collaborator behaves
normally. -/
def envOk : CallEnv :=
  ⟨"uuid-1", 0, 15000, Except.ok 100, Except.ok 200, Except.ok 150,
   Except.ok 260, "2026-10-12 00:00:00"⟩

/-- The exception a failing psutil resource query would raise. -/
def sampErr : Err := ⟨"psutil.Error", "sampling failed"⟩

/-- A call environment whose first CPU-time query fails. -/
def envCpuFail : CallEnv := { envOk with cpu_start := Except.error sampErr }

/-- A call environment in which only the CPU-time query after the wrapped
call fails. -/
def envCpuEndFail : CallEnv := { envOk with cpu_end := Except.error sampErr }

/-- A call environment in which only the memory query before the wrapped
call fails. -/
def envMemFail : CallEnv := { envOk with mem_start := Except.error sampErr }

/-- A call environment in which only the memory query after the wrapped
call fails. -/
def envMemEndFail : CallEnv := { envOk with mem_end := Except.error sampErr }

/-- A `Timer` with all-default configuration. -/
def timerDefault : Timer := {}

/-- A `Timer` configured with the example digit-masking sanitizer. -/
def timerSan : Timer := { sanitize_func := some sanitizer }

/-- A `Timer` with the digit-masking sanitizer and a maximum rendered
argument length of 4. -/
def timerTrunc : Timer := { sanitize_func := some sanitizer, max_arg_length := some 4 }

/-- An `ErrorCatcher` configured with the example digit-masking
sanitizer. -/
def catcherSan : ErrorCatcher := { sanitize_func := some sanitizer }

/-- The exception of the spec's division scenario. -/
def divErr : Err := ⟨"ZeroDivisionError", "division by zero"⟩

/-- Appending strings concatenates their character data, so lengths add. -/
theorem string_length_append (a b : String) : (a ++ b).length = a.length + b.length := by
  rcases a with ⟨la⟩
  rcases b with ⟨lb⟩
  show (String.mk (la ++ lb)).length = la.length + lb.length
  simp

/-- If a wrapped call through `Timer` appended a CSV row, then metrics
emission was enabled and the wrapped function succeeded. -/
theorem timer_csvRows_ne_nil {α : Type} (self : Timer) (env : CallEnv)
    (fn : String) (args : List PyVal) (kwargs : List (String × PyVal))
    (f : Except Err α)
    (h : (self.wrapper env fn args kwargs f).csvRows ≠ []) :
    self.log_to_file = true ∧ ∃ v, f = Except.ok v := by
  unfold Timer.wrapper at h
  cases h1 : sampleIf self.track_resources env.cpu_start with
  | error e1 => rw [h1] at h; exact absurd rfl h
  | ok a1 =>
  rw [h1] at h
  cases h2 : sampleIf self.track_resources env.mem_start with
  | error e2 => rw [h2] at h; exact absurd rfl h
  | ok a2 =>
  rw [h2] at h
  cases f with
  | error e => exact absurd rfl h
  | ok v =>
  cases h3 : sampleIf self.track_resources env.cpu_end with
  | error e3 => rw [h3] at h; exact absurd rfl h
  | ok a3 =>
  rw [h3] at h
  cases h4 : sampleIf self.track_resources env.mem_end with
  | error e4 => rw [h4] at h; exact absurd rfl h
  | ok a4 =>
  rw [h4] at h
  cases hl : self.log_to_file with
  | false => rw [hl] at h; exact absurd rfl h
  | true => exact ⟨rfl, v, rfl⟩

/-- C1: for every wrapped function and every input on which that function
returns normally, the unit produced by the `Timer` wrapper returns exactly
the same value the unwrapped function produced on that input (here under
the stated condition that the resource queries themselves do not raise;
their failure is the subject of C5). -/
theorem timer_returns_unwrapped_value {α : Type} (self : Timer) (env : CallEnv)
    (fn : String) (args : List PyVal) (kwargs : List (String × PyVal)) (v : α)
    (hs : startSamplesOk self env) (he : endSamplesOk self env) :
    (self.wrapper env fn args kwargs (Except.ok v)).result = Except.ok v := by
  obtain ⟨⟨c1, h1⟩, ⟨m1, h2⟩⟩ := hs
  obtain ⟨⟨c2, h3⟩, ⟨m2, h4⟩⟩ := he
  unfold Timer.wrapper
  rw [h1, h2, h3, h4]

/-- C1 witness: the wrapper around a call returning 5 returns 5 in a
normally behaving environment. -/
theorem timer_returns_unwrapped_value_witness :
    startSamplesOk timerDefault envOk ∧ endSamplesOk timerDefault envOk ∧
    (timerDefault.wrapper envOk ("add") [PyVal.strOk ("2"), PyVal.strOk ("3")] []
      (Except.ok (5 : Nat))).result = Except.ok 5 :=
  ⟨⟨⟨some 100, rfl⟩, ⟨some 200, rfl⟩⟩, ⟨⟨some 150, rfl⟩, ⟨some 260, rfl⟩⟩,
   timer_returns_unwrapped_value timerDefault envOk ("add")
     [PyVal.strOk ("2"), PyVal.strOk ("3")] [] 5
     ⟨⟨some 100, rfl⟩, ⟨some 200, rfl⟩⟩ ⟨⟨some 150, rfl⟩, ⟨some 260, rfl⟩⟩⟩

/-- C2: when the wrapped function raises, both the `Timer` wrapper and the
`ErrorCatcher` wrapper re-raise a failure with the identical message and
type as the original — the very same exception value, never a translated
or wrapped one. -/
theorem wrappers_reraise_identically {α : Type} (self : Timer) (env : CallEnv)
    (fn : String) (args : List PyVal) (kwargs : List (String × PyVal))
    (ec : ErrorCatcher) (u : String) (e : Err)
    (hs : startSamplesOk self env) :
    (self.wrapper env fn args kwargs (Except.error e : Except Err α)).result =
      Except.error e ∧
    (ec.wrapper u fn (Except.error e : Except Err α)).result = Except.error e := by
  obtain ⟨⟨c1, h1⟩, ⟨m1, h2⟩⟩ := hs
  constructor
  · unfold Timer.wrapper
    rw [h1, h2]
  · rfl

/-- C2 witness: both wrappers re-raise the division-by-zero error
unchanged. -/
theorem wrappers_reraise_identically_witness :
    startSamplesOk timerDefault envOk ∧
    (timerDefault.wrapper envOk ("div") [] [] (Except.error divErr : Except Err Nat)).result =
      Except.error divErr ∧
    (catcherSan.wrapper ("uuid-2") ("div") (Except.error divErr : Except Err Nat)).result =
      Except.error divErr :=
  ⟨⟨⟨some 100, rfl⟩, ⟨some 200, rfl⟩⟩,
   (wrappers_reraise_identically timerDefault envOk ("div") [] [] catcherSan
     ("uuid-2") divErr ⟨⟨some 100, rfl⟩, ⟨some 200, rfl⟩⟩).1,
   (wrappers_reraise_identically timerDefault envOk ("div") [] [] catcherSan
     ("uuid-2") divErr ⟨⟨some 100, rfl⟩, ⟨some 200, rfl⟩⟩).2⟩

/-- C3: a call through the `Timer` wrapper in which the wrapped function
raises appends no CSV metrics row, and a row is ever appended only on the
success path with metrics emission enabled. -/
theorem timer_no_csv_row_on_error {α : Type} (self : Timer) (env : CallEnv)
    (fn : String) (args : List PyVal) (kwargs : List (String × PyVal))
    (e : Err) (f : Except Err α) :
    (self.wrapper env fn args kwargs (Except.error e : Except Err α)).csvRows = [] ∧
    ((self.wrapper env fn args kwargs f).csvRows ≠ [] →
      self.log_to_file = true ∧ ∃ v, f = Except.ok v) := by
  constructor
  · unfold Timer.wrapper
    cases h1 : sampleIf self.track_resources env.cpu_start with
    | error e1 => rfl
    | ok a1 =>
      cases h2 : sampleIf self.track_resources env.mem_start with
      | error e2 => rfl
      | ok a2 => rfl
  · exact timer_csvRows_ne_nil self env fn args kwargs f

/-- C3 witness: with default configuration a failing call leaves the CSV
sink untouched, and a successful call that did append a row had metrics
emission enabled. -/
theorem timer_no_csv_row_on_error_witness :
    (timerDefault.wrapper envOk ("div") [] [] (Except.error divErr : Except Err Nat)).csvRows = [] ∧
    (timerDefault.log_to_file = true ∧ ∃ v, (Except.ok (5 : Nat) : Except Err Nat) = Except.ok v) :=
  ⟨(timer_no_csv_row_on_error timerDefault envOk ("div") [] [] divErr
      (Except.ok (5 : Nat))).1,
   (timer_no_csv_row_on_error timerDefault envOk ("div") [] [] divErr
      (Except.ok (5 : Nat))).2 (by decide)⟩

/-- C4 counterexample: with the digit-masking sanitizer configured, a
DataFrame argument with 5 rows reaches the sink as "<DataFrame with 5
rows>", which is not the sanitizer's image of that rendering — the digit
is not redacted, because `safe_serialize` returns the row-count summary
before the sanitizer is applied. -/
theorem sanitizer_bypassed_for_dataframe :
    timerSan.safe_serialize (PyVal.dataFrame 5) = "<DataFrame with 5 rows>" ∧
    sanitizer ("<DataFrame with 5 rows>") = "<DataFrame with * rows>" ∧
    timerSan.safe_serialize (PyVal.dataFrame 5) ≠
      sanitizer ("<DataFrame with 5 rows>") := by
  refine ⟨by decide, by decide, by decide⟩

/-- C4 amended: when a sanitizer is configured, every generically rendered
argument is sanitized before truncation and before reaching the sink
(including the fixed fallback for unserializable values), and every
`ErrorCatcher` error message is sanitized before it is logged; DataFrame
arguments, however, render as a row-count summary to which neither the
sanitizer nor truncation is applied. -/
theorem sanitizer_applied_to_renderings {α : Type} (f : String → String)
    (self : Timer) (hs : self.sanitize_func = some f) (s : String)
    (ec : ErrorCatcher) (hes : ec.sanitize_func = some f)
    (u fn : String) (e : Err) :
    self.safe_serialize (PyVal.strOk s) = truncateArg self.max_arg_length (f s) ∧
    self.safe_serialize PyVal.strFails =
      truncateArg self.max_arg_length (f ("<unserializable>")) ∧
    (ec.wrapper u fn (Except.error e : Except Err α)).logEntries =
      [⟨"ERROR", "Function `" ++ fn ++ "` raised an exception: " ++ f e.msg,
        fn, u⟩] := by
  refine ⟨?_, ?_, ?_⟩
  · simp [Timer.safe_serialize, Timer.applySanitize, hs]
  · simp [Timer.safe_serialize, Timer.applySanitize, hs]
  · simp [ErrorCatcher.wrapper, hes]

/-- C4 amended witness: the digit-masking sanitizer is applied to a generic
argument rendering and to the error message logged by `ErrorCatcher`. -/
theorem sanitizer_applied_to_renderings_witness :
    timerSan.sanitize_func = some sanitizer ∧
    catcherSan.sanitize_func = some sanitizer ∧
    timerSan.safe_serialize (PyVal.strOk ("pin 1234")) =
      truncateArg timerSan.max_arg_length (sanitizer ("pin 1234")) ∧
    (catcherSan.wrapper ("uuid-3") ("f") (Except.error divErr : Except Err Nat)).logEntries =
      [⟨"ERROR",
        "Function `" ++ "f" ++ "` raised an exception: " ++ sanitizer ("division by zero"),
        "f", "uuid-3"⟩] :=
  ⟨rfl, rfl,
   (sanitizer_applied_to_renderings (α := Nat) sanitizer timerSan rfl ("pin 1234")
     catcherSan rfl ("uuid-3") ("f") divErr).1,
   (sanitizer_applied_to_renderings (α := Nat) sanitizer timerSan rfl ("pin 1234")
     catcherSan rfl ("uuid-3") ("f") divErr).2.2⟩

/-- C5 counterexample: with resource tracking on (the default), a failing
CPU-time query before the call makes the wrapper raise the sampling error
instead of returning the wrapped function's value — the call IS failed by
the sampling error, and no fields are merely disabled. -/
theorem sampling_failure_fails_call :
    (timerDefault.wrapper envCpuFail ("f") [] [] (Except.ok (42 : Nat))).result =
      Except.error sampErr ∧
    (timerDefault.wrapper envCpuFail ("f") [] [] (Except.ok (42 : Nat))).result ≠
      Except.ok 42 := by
  have h1 : (timerDefault.wrapper envCpuFail ("f") [] [] (Except.ok (42 : Nat))).result =
      Except.error sampErr := rfl
  refine ⟨h1, fun h => ?_⟩
  rw [h1] at h
  exact Except.noConfusion h

/-- C5 amended: when resource tracking is enabled and any of the four
resource queries raises — CPU time or resident memory, before or after the
call — the sampling exception propagates out of the wrapper and the call
fails with it: a failing query before the call prevents any result from
being produced, and a failing query after a successful call discards the
wrapped function's result; in every case no console, log or CSV output is
emitted for the call.  The hypotheses on the earlier queries in each case
reflect Python's evaluation order (CPU before memory, pre-call before
post-call): an earlier failing query raises first. -/
theorem sampling_failure_propagates {α : Type} (self : Timer) (env : CallEnv)
    (fn : String) (args : List PyVal) (kwargs : List (String × PyVal))
    (f : Except Err α) (e : Err) (ht : self.track_resources = true) :
    (env.cpu_start = Except.error e →
      self.wrapper env fn args kwargs f = ⟨Except.error e, [], [], []⟩) ∧
    (∀ c, env.cpu_start = Except.ok c → env.mem_start = Except.error e →
      self.wrapper env fn args kwargs f = ⟨Except.error e, [], [], []⟩) ∧
    (∀ c m v, env.cpu_start = Except.ok c → env.mem_start = Except.ok m →
      f = Except.ok v → env.cpu_end = Except.error e →
      self.wrapper env fn args kwargs f = ⟨Except.error e, [], [], []⟩) ∧
    (∀ c m v ce, env.cpu_start = Except.ok c → env.mem_start = Except.ok m →
      f = Except.ok v → env.cpu_end = Except.ok ce →
      env.mem_end = Except.error e →
      self.wrapper env fn args kwargs f = ⟨Except.error e, [], [], []⟩) := by
  refine ⟨?_, ?_, ?_, ?_⟩
  · intro hc
    unfold Timer.wrapper
    have e1 : sampleIf self.track_resources env.cpu_start = Except.error e := by
      simp [sampleIf, ht, hc, Except.map]
    rw [e1]
  · intro c hc hm
    unfold Timer.wrapper
    have e1 : sampleIf self.track_resources env.cpu_start = Except.ok (some c) := by
      simp [sampleIf, ht, hc, Except.map]
    have e2 : sampleIf self.track_resources env.mem_start = Except.error e := by
      simp [sampleIf, ht, hm, Except.map]
    rw [e1, e2]
  · intro c m v hc hm hf hce
    subst hf
    unfold Timer.wrapper
    have e1 : sampleIf self.track_resources env.cpu_start = Except.ok (some c) := by
      simp [sampleIf, ht, hc, Except.map]
    have e2 : sampleIf self.track_resources env.mem_start = Except.ok (some m) := by
      simp [sampleIf, ht, hm, Except.map]
    have e3 : sampleIf self.track_resources env.cpu_end = Except.error e := by
      simp [sampleIf, ht, hce, Except.map]
    rw [e1, e2, e3]
  · intro c m v ce hc hm hf hce hme
    subst hf
    unfold Timer.wrapper
    have e1 : sampleIf self.track_resources env.cpu_start = Except.ok (some c) := by
      simp [sampleIf, ht, hc, Except.map]
    have e2 : sampleIf self.track_resources env.mem_start = Except.ok (some m) := by
      simp [sampleIf, ht, hm, Except.map]
    have e3 : sampleIf self.track_resources env.cpu_end = Except.ok (some ce) := by
      simp [sampleIf, ht, hce, Except.map]
    have e4 : sampleIf self.track_resources env.mem_end = Except.error e := by
      simp [sampleIf, ht, hme, Except.map]
    rw [e1, e2, e3, e4]

/-- C5 amended witness: each of the four failing resource queries — CPU
time or resident memory, before the call or after the wrapped function
already returned 42 — makes the wrapper produce the sampling error with no
output. -/
theorem sampling_failure_propagates_witness :
    timerDefault.wrapper envCpuFail ("f") [] [] (Except.ok (42 : Nat)) =
      ⟨Except.error sampErr, [], [], []⟩ ∧
    timerDefault.wrapper envMemFail ("f") [] [] (Except.ok (42 : Nat)) =
      ⟨Except.error sampErr, [], [], []⟩ ∧
    timerDefault.wrapper envCpuEndFail ("f") [] [] (Except.ok (42 : Nat)) =
      ⟨Except.error sampErr, [], [], []⟩ ∧
    timerDefault.wrapper envMemEndFail ("f") [] [] (Except.ok (42 : Nat)) =
      ⟨Except.error sampErr, [], [], []⟩ :=
  ⟨(sampling_failure_propagates timerDefault envCpuFail ("f") [] []
      (Except.ok (42 : Nat)) sampErr rfl).1 rfl,
   (sampling_failure_propagates timerDefault envMemFail ("f") [] []
      (Except.ok (42 : Nat)) sampErr rfl).2.1 100 rfl rfl,
   (sampling_failure_propagates timerDefault envCpuEndFail ("f") [] []
      (Except.ok (42 : Nat)) sampErr rfl).2.2.1 100 200 42 rfl rfl rfl rfl,
   (sampling_failure_propagates timerDefault envMemEndFail ("f") [] []
      (Except.ok (42 : Nat)) sampErr rfl).2.2.2 100 200 42 150 rfl rfl rfl rfl rfl⟩

/-- C6: with a configured maximum argument length `n`, a generically
rendered argument whose post-sanitizer rendering is strictly longer than
`n` is logged with length exactly `n` plus the length of the ellipsis
marker and ends with that marker, while a rendering of length at most `n`
is left unchanged. -/
theorem truncation_exact (self : Timer) (n : Nat)
    (hn : self.max_arg_length = some n) (s : String) :
    (n < (self.applySanitize s).length →
      (self.safe_serialize (PyVal.strOk s)).length = n + ("...").length ∧
      ∃ p, self.safe_serialize (PyVal.strOk s) = p ++ "...") ∧
    ((self.applySanitize s).length ≤ n →
      self.safe_serialize (PyVal.strOk s) = self.applySanitize s) := by
  have hser : self.safe_serialize (PyVal.strOk s) =
      truncateArg self.max_arg_length (self.applySanitize s) := rfl
  constructor
  · intro h
    have htr : truncateArg self.max_arg_length (self.applySanitize s) =
        strTake (self.applySanitize s) n ++ "..." := by
      rw [hn]; simp only [truncateArg]; rw [if_pos h]
    have hTake : (strTake (self.applySanitize s) n).length = n := by
      have h2 : n < (self.applySanitize s).data.length := h
      show ((self.applySanitize s).data.take n).length = n
      rw [List.length_take]
      omega
    constructor
    · rw [hser, htr, string_length_append, hTake]
    · exact ⟨strTake (self.applySanitize s) n, by rw [hser, htr]⟩
  · intro h
    rw [hser, hn]
    simp only [truncateArg]
    rw [if_neg (Nat.not_lt.mpr h)]

/-- C6 witness: with maximum length 4 and the digit-masking sanitizer,
"secret 99" is logged as a 7-character string ending in the marker, while
the short rendering of "ab1" is left unchanged. -/
theorem truncation_exact_witness :
    timerTrunc.max_arg_length = some 4 ∧
    4 < (timerTrunc.applySanitize ("secret 99")).length ∧
    (timerTrunc.safe_serialize (PyVal.strOk ("secret 99"))).length = 4 + ("...").length ∧
    (∃ p, timerTrunc.safe_serialize (PyVal.strOk ("secret 99")) = p ++ "...") ∧
    (timerTrunc.applySanitize ("ab1")).length ≤ 4 ∧
    timerTrunc.safe_serialize (PyVal.strOk ("ab1")) = timerTrunc.applySanitize ("ab1") :=
  ⟨rfl, by decide,
   ((truncation_exact timerTrunc 4 rfl ("secret 99")).1 (by decide)).1,
   ((truncation_exact timerTrunc 4 rfl ("secret 99")).1 (by decide)).2,
   by decide,
   (truncation_exact timerTrunc 4 rfl ("ab1")).2 (by decide)⟩

/-- C7: on a successful call through the `Timer` wrapper, exactly one
structured log entry at info severity is emitted regardless of the console
and metrics switches; the console line is printed exactly when console
emission is enabled, and a CSV row is appended exactly when metrics
emission is enabled. -/
theorem timer_success_dispatch {α : Type} (self : Timer) (env : CallEnv)
    (fn : String) (args : List PyVal) (kwargs : List (String × PyVal)) (v : α)
    (hs : startSamplesOk self env) (he : endSamplesOk self env) :
    ∃ msg row,
      (self.wrapper env fn args kwargs (Except.ok v)).logEntries =
        [⟨"INFO", msg, fn, env.call_uuid⟩] ∧
      (self.wrapper env fn args kwargs (Except.ok v)).console =
        (if self.log_to_console then [msg] else []) ∧
      (self.wrapper env fn args kwargs (Except.ok v)).csvRows =
        (if self.log_to_file then [row] else []) := by
  obtain ⟨⟨c1, h1⟩, ⟨m1, h2⟩⟩ := hs
  obtain ⟨⟨c2, h3⟩, ⟨m2, h4⟩⟩ := he
  unfold Timer.wrapper
  rw [h1, h2, h3, h4]
  exact ⟨_, _, rfl, rfl, rfl⟩

/-- C7 witness: a successful default-configuration call emits one INFO
entry, one console line and one CSV row. -/
theorem timer_success_dispatch_witness :
    startSamplesOk timerDefault envOk ∧ endSamplesOk timerDefault envOk ∧
    ∃ msg row,
      (timerDefault.wrapper envOk ("add") [] [] (Except.ok (5 : Nat))).logEntries =
        [⟨"INFO", msg, "add", envOk.call_uuid⟩] ∧
      (timerDefault.wrapper envOk ("add") [] [] (Except.ok (5 : Nat))).console =
        (if timerDefault.log_to_console then [msg] else []) ∧
      (timerDefault.wrapper envOk ("add") [] [] (Except.ok (5 : Nat))).csvRows =
        (if timerDefault.log_to_file then [row] else []) :=
  ⟨⟨⟨some 100, rfl⟩, ⟨some 200, rfl⟩⟩, ⟨⟨some 150, rfl⟩, ⟨some 260, rfl⟩⟩,
   timer_success_dispatch timerDefault envOk ("add") [] [] 5
     ⟨⟨some 100, rfl⟩, ⟨some 200, rfl⟩⟩ ⟨⟨some 150, rfl⟩, ⟨some 260, rfl⟩⟩⟩

/-- C8: in the record rendered by `JSONFormatter`, a missing function name
or correlation id appears as the explicit marker "N/A", and both fields
are always present. -/
theorem json_formatter_na_marker (r : LogRecord) :
    (r.function_name = none →
      (JSONFormatter.logRecord r).lookup ("function") = some ("N/A")) ∧
    (r.uuid = none →
      (JSONFormatter.logRecord r).lookup ("uuid") = some ("N/A")) ∧
    (∃ s, (JSONFormatter.logRecord r).lookup ("function") = some s) ∧
    (∃ s, (JSONFormatter.logRecord r).lookup ("uuid") = some s) := by
  have hfun : (JSONFormatter.logRecord r).lookup ("function") =
      some (r.function_name.getD ("N/A")) := rfl
  have huuid : (JSONFormatter.logRecord r).lookup ("uuid") =
      some (r.uuid.getD ("N/A")) := rfl
  refine ⟨fun hf => ?_, fun hu => ?_, ⟨_, hfun⟩, ⟨_, huuid⟩⟩
  · rw [hfun, hf]
    rfl
  · rw [huuid, hu]
    rfl

/-- C8 witness: a record carrying neither attribute renders both fields as
"N/A". -/
theorem json_formatter_na_marker_witness :
    (LogRecord.function_name ⟨"t", "INFO", "m", none, none⟩ = none) ∧
    (JSONFormatter.logRecord ⟨"t", "INFO", "m", none, none⟩).lookup ("function") =
      some ("N/A") ∧
    (JSONFormatter.logRecord ⟨"t", "INFO", "m", none, none⟩).lookup ("uuid") =
      some ("N/A") :=
  ⟨rfl, (json_formatter_na_marker ⟨"t", "INFO", "m", none, none⟩).1 rfl,
   (json_formatter_na_marker ⟨"t", "INFO", "m", none, none⟩).2.1 rfl⟩

/-- C9: a DataFrame argument with `n` rows always serializes to exactly
the row-count summary string, for every configuration — in particular
neither the configured sanitizer nor the length truncation touches it. -/
theorem dataframe_renders_as_row_count (self : Timer) (n : Nat) :
    self.safe_serialize (PyVal.dataFrame n) =
      "<DataFrame with " ++ toString n ++ " rows>" := rfl

/-- C10: the example digit-masking sanitizer is idempotent and preserves
the length of its input. -/
theorem sanitizer_idempotent_and_length_preserving (s : String) :
    sanitizer (sanitizer s) = sanitizer s ∧ (sanitizer s).length = s.length := by
  constructor
  · show String.mk ((s.data.map (fun c => if c.isDigit then '*' else c)).map
        (fun c => if c.isDigit then '*' else c)) =
      String.mk (s.data.map (fun c => if c.isDigit then '*' else c))
    rw [List.map_map]
    congr 1
    apply List.map_congr_left
    intro c _
    by_cases h : c.isDigit
    · simp [h]
    · simp [h]
  · show (s.data.map (fun c => if c.isDigit then '*' else c)).length = s.data.length
    exact List.length_map s.data (fun c => if c.isDigit then '*' else c)

end Monitoring
